import Mathlib

/-!
Verification of the Long-Distance Call Cost Calculator (src/main.cpp).

The program is an interactive loop: it reads a weekday (two letters), a start
time (hour, separator, minutes), and a call length (string parsed with
std::stoi), then computes a cost from a three-branch rate table.

Embedding choices:
* C++ `int` is modelled as `Int` (no intermediate arithmetic can overflow in
  the modelled fragment; `std::stoi`'s own range check against INT_MAX is
  modelled explicitly).
* The `float` rate constants 0.15f / 0.25f / 0.4f are modelled as the exact
  rationals 15/100, 25/100, 40/100 in `ℚ`.
* Each retry loop is modelled by its loop body: a step function taking the
  already-parsed input of one iteration and returning the updated record,
  whether the input was accepted, and the error message printed (if any).
* `std::isalpha`, `std::isdigit`, `std::tolower` are modelled on ASCII
  (the "C" locale behaviour on the default execution character set).
* `std::stoi` throwing `std::out_of_range` (uncaught by the program) is
  modelled by `Except.error`.
-/

/-- The `weekday` enum of src/main.cpp, including its `None = 0` sentinel. -/
inductive weekday where
  | None
  | Monday
  | Tuesday
  | Wednesday
  | Thursday
  | Friday
  | Saturday
  | Sunday
deriving DecidableEq, Repr

/-- The `long_distance_call_data` class: its four data members with the
member initializers from src/main.cpp lines 70-73
(`weekday_{weekday::Monday}`, `hour_{24}`, `minutes_{00}`,
`length_of_call_{}` i.e. value-initialized to 0). -/
structure long_distance_call_data where
  weekday_ : weekday := weekday.Monday
  hour_ : Int := 24
  minutes_ : Int := 0
  length_of_call_ : Int := 0
deriving DecidableEq, Repr

/-- A default-constructed `long_distance_call_data` (the fresh record created
at the top of each `main` loop iteration, line 254). -/
def mkCallData : long_distance_call_data := {}

/-- `std::isalpha` in the "C" locale on ASCII input. -/
def isalpha (c : Char) : Bool :=
  ('a' ≤ c && c ≤ 'z') || ('A' ≤ c && c ≤ 'Z')

/-- `std::isdigit` in the "C" locale on ASCII input. -/
def isdigit (c : Char) : Bool :=
  '0' ≤ c && c ≤ '9'

/-- `std::tolower` in the "C" locale on ASCII input. -/
def tolower (c : Char) : Char :=
  if 'A' ≤ c && c ≤ 'Z' then Char.ofNat (c.toNat + 32) else c

/-- Result of one iteration of an input-collector loop body: the record after
the iteration, whether the loop's valid flag was set (loop exits), and the
error message printed during the iteration, if any. -/
structure StepResult where
  data : long_distance_call_data
  valid : Bool
  message : Option String
deriving DecidableEq, Repr

/-- One iteration of the `get_day_of_week` loop (src/main.cpp lines 94-155),
applied to the two characters read by `std::cin >> first_letter >>
second_letter`.  Mirrors the `switch (std::tolower(first_letter))`:
note that only the `default:` label prints "You entered an invalid weekday.";
the inner rejections under case 't' and case 's' fall out of the switch
silently, and non-alphabetic input `continue`s silently. -/
def get_day_of_week_step (in_data : long_distance_call_data)
    (first_letter second_letter : Char) : StepResult :=
  if !(isalpha first_letter) || !(isalpha second_letter) then
    ⟨in_data, false, none⟩
  else if tolower first_letter = 'm' then
    ⟨{ in_data with weekday_ := weekday.Monday }, true, none⟩
  else if tolower first_letter = 't' then
    if tolower second_letter = 'u' then
      ⟨{ in_data with weekday_ := weekday.Tuesday }, true, none⟩
    else if tolower second_letter = 'h' then
      ⟨{ in_data with weekday_ := weekday.Thursday }, true, none⟩
    else
      ⟨in_data, false, none⟩
  else if tolower first_letter = 'w' then
    ⟨{ in_data with weekday_ := weekday.Wednesday }, true, none⟩
  else if tolower first_letter = 'f' then
    ⟨{ in_data with weekday_ := weekday.Friday }, true, none⟩
  else if tolower first_letter = 's' then
    if tolower second_letter = 'a' then
      ⟨{ in_data with weekday_ := weekday.Saturday }, true, none⟩
    else if tolower second_letter = 'u' then
      ⟨{ in_data with weekday_ := weekday.Sunday }, true, none⟩
    else
      ⟨in_data, false, none⟩
  else
    ⟨in_data, false, some "You entered an invalid weekday."⟩

/-- One iteration of the `get_start_time` loop (src/main.cpp lines 162-189),
applied to the two integers parsed by `std::cin >> hour >> c >> minutes`
(the separator character `c` is read but never inspected). -/
def get_start_time_step (in_data : long_distance_call_data)
    (hour minutes : Int) : StepResult :=
  if hour < 0 ∨ hour > 24 then
    ⟨in_data, false, some "You entered an invalid hour."⟩
  else if minutes < 0 ∨ minutes > 59 ∨ (minutes > 0 ∧ hour = 24) then
    ⟨in_data, false, some "You entered an invalid minutes."⟩
  else
    ⟨{ in_data with hour_ := hour, minutes_ := minutes }, true, none⟩

/-- The digits at the front of a character list. -/
def leadingDigits (l : List Char) : List Char :=
  l.takeWhile (fun c => isdigit c)

/-- The numeric value of a list of decimal digit characters. -/
def digitsToNat (l : List Char) : Nat :=
  l.foldl (fun acc c => acc * 10 + (c.toNat - 48)) 0

/-- `INT_MAX` for the 32-bit `int` that `std::stoi` returns. -/
def INT_MAX : Int := 2147483647

/-- `std::stoi` as called at src/main.cpp line 213: the argument is the
whitespace-free token read by `std::cin >>`, so no leading whitespace or sign
handling is needed.  It converts the longest leading run of digits, throws
`std::invalid_argument` if there is none, and throws `std::out_of_range` if
the converted value does not fit in `int`. -/
def stoi (s : String) : Except String Int :=
  match s.data with
  | [] => Except.error "invalid_argument"
  | c :: _ =>
    if isdigit c then
      let v : Nat := digitsToNat (leadingDigits s.data)
      if (v : Int) > INT_MAX then Except.error "out_of_range"
      else Except.ok (v : Int)
    else Except.error "invalid_argument"

/-- One iteration of the `get_length_of_call` loop (src/main.cpp lines
196-217), applied to the token read into `char length_of_call[256]`.
`Except.error e` models an exception thrown by `std::stoi` escaping the
function (the program has no try/catch anywhere). -/
def get_length_of_call_step (in_data : long_distance_call_data)
    (length_of_call : String) : Except String StepResult :=
  if !(isdigit (length_of_call.data.headD ' ')) then
    Except.ok ⟨in_data, false, some "You did not enter a valid number."⟩
  else
    match stoi length_of_call with
    | Except.error e => Except.error e
    | Except.ok v => Except.ok ⟨{ in_data with length_of_call_ := v }, true, none⟩

/-- `calculate_cost_of_call` (src/main.cpp lines 225-247), with the `float`
rate constants modelled as exact rationals. -/
def calculate_cost_of_call (in_data : long_distance_call_data) : ℚ :=
  let weekend_rate : ℚ := 15 / 100
  let weekday_edge_rate : ℚ := 25 / 100
  let weekday_normal_rate : ℚ := 40 / 100
  if in_data.weekday_ = weekday.Saturday ∨ in_data.weekday_ = weekday.Sunday then
    (in_data.length_of_call_ : ℚ) * weekend_rate
  else if in_data.hour_ < 8 ∨ in_data.hour_ > 18 then
    (in_data.length_of_call_ : ℚ) * weekday_edge_rate
  else
    (in_data.length_of_call_ : ℚ) * weekday_normal_rate

/-- `long_distance_call_data::get_time_formatted` (src/main.cpp lines 59-67):
`std::to_string(int)` is `toString` on `Int`. -/
def get_time_formatted (d : long_distance_call_data) : String :=
  if d.minutes_ = 0 then
    toString d.hour_ ++ ":" ++ toString d.minutes_ ++ toString d.minutes_
  else
    toString d.hour_ ++ ":" ++ toString d.minutes_

/-- The continue-prompt `switch (std::tolower(quit_input))` at the bottom of
`main` (src/main.cpp lines 286-299): returns whether `quit` is set, and the
message printed, if any. -/
def continue_prompt_step (quit_input : Char) : Bool × Option String :=
  if tolower quit_input = 'n' then (true, none)
  else if tolower quit_input = 'y' then (false, none)
  else (false, some "I\x27ll take that as a yes")

/-- C1: for every CallRecord whose weekday is Saturday or Sunday,
cost = durationMinutes * 0.15; for a Monday-to-Friday weekday with startHour
in [0,7] or [19,24], cost = durationMinutes * 0.25; for a Monday-to-Friday
weekday with startHour in [8,18], cost = durationMinutes * 0.40. -/
theorem C1_rate_table (d : long_distance_call_data) :
    ((d.weekday_ = weekday.Saturday ∨ d.weekday_ = weekday.Sunday) →
      calculate_cost_of_call d = (d.length_of_call_ : ℚ) * (15 / 100)) ∧
    ((d.weekday_ = weekday.Monday ∨ d.weekday_ = weekday.Tuesday ∨
        d.weekday_ = weekday.Wednesday ∨ d.weekday_ = weekday.Thursday ∨
        d.weekday_ = weekday.Friday) →
      ((0 ≤ d.hour_ ∧ d.hour_ ≤ 7) ∨ (19 ≤ d.hour_ ∧ d.hour_ ≤ 24)) →
      calculate_cost_of_call d = (d.length_of_call_ : ℚ) * (25 / 100)) ∧
    ((d.weekday_ = weekday.Monday ∨ d.weekday_ = weekday.Tuesday ∨
        d.weekday_ = weekday.Wednesday ∨ d.weekday_ = weekday.Thursday ∨
        d.weekday_ = weekday.Friday) →
      (8 ≤ d.hour_ ∧ d.hour_ ≤ 18) →
      calculate_cost_of_call d = (d.length_of_call_ : ℚ) * (40 / 100)) := by
  simp only [calculate_cost_of_call]
  refine ⟨fun h => ?_, fun hw hh => ?_, fun hw hh => ?_⟩
  · rw [if_pos h]
  · have hns : ¬(d.weekday_ = weekday.Saturday ∨ d.weekday_ = weekday.Sunday) := by
      rcases hw with h | h | h | h | h <;> rw [h] <;> decide
    rw [if_neg hns, if_pos (show d.hour_ < 8 ∨ d.hour_ > 18 by omega)]
  · have hns : ¬(d.weekday_ = weekday.Saturday ∨ d.weekday_ = weekday.Sunday) := by
      rcases hw with h | h | h | h | h <;> rw [h] <;> decide
    rw [if_neg hns, if_neg (show ¬(d.hour_ < 8 ∨ d.hour_ > 18) by omega)]

/-- Witness for C1_rate_table: a Saturday 23:00 call of 60 minutes costs
60 * 0.15 = $9.00 (spec scenario 2). -/
theorem C1_rate_table_witness :
    calculate_cost_of_call ⟨weekday.Saturday, 23, 0, 60⟩ = 9 := by
  have h := (C1_rate_table ⟨weekday.Saturday, 23, 0, 60⟩).1 (Or.inl rfl)
  rw [h]; norm_num

/-- C2: cost does not depend on startMinute: two records agreeing on weekday,
startHour and durationMinutes have equal cost; in particular a Friday call at
18:45 of 20 minutes costs $8.00 (peak rate at hour 18 regardless of minute). -/
theorem C2_minute_noninterference (d1 d2 : long_distance_call_data)
    (hw : d1.weekday_ = d2.weekday_) (hh : d1.hour_ = d2.hour_)
    (hl : d1.length_of_call_ = d2.length_of_call_) :
    calculate_cost_of_call d1 = calculate_cost_of_call d2 ∧
    calculate_cost_of_call ⟨weekday.Friday, 18, 45, 20⟩ = 8 := by
  constructor
  · simp only [calculate_cost_of_call, hw, hh, hl]
  · norm_num [calculate_cost_of_call]
    exact ⟨by decide, by decide⟩

/-- Witness for C2_minute_noninterference: Friday 18:45 and Friday 18:00,
both 20 minutes, cost the same. -/
theorem C2_minute_noninterference_witness :
    calculate_cost_of_call ⟨weekday.Friday, 18, 45, 20⟩ =
      calculate_cost_of_call ⟨weekday.Friday, 18, 0, 20⟩ ∧
    calculate_cost_of_call ⟨weekday.Friday, 18, 45, 20⟩ = 8 :=
  C2_minute_noninterference ⟨weekday.Friday, 18, 45, 20⟩ ⟨weekday.Friday, 18, 0, 20⟩
    rfl rfl rfl

/-- C3: get_start_time accepts a parsed (hour, minutes) pair iff hour is in
[0,24], minutes is in [0,59], and not (hour = 24 with minutes > 0); a
rejected hour prints "You entered an invalid hour." and a rejected minutes
value prints "You entered an invalid minutes.", re-prompting in each case. -/
theorem C3_time_validation (d : long_distance_call_data) (hour minutes : Int) :
    ((get_start_time_step d hour minutes).valid = true ↔
      (0 ≤ hour ∧ hour ≤ 24 ∧ 0 ≤ minutes ∧ minutes ≤ 59 ∧
        ¬(hour = 24 ∧ 0 < minutes))) ∧
    ((hour < 0 ∨ 24 < hour) →
      (get_start_time_step d hour minutes).valid = false ∧
      (get_start_time_step d hour minutes).message =
        some "You entered an invalid hour.") ∧
    ((0 ≤ hour ∧ hour ≤ 24) →
      (minutes < 0 ∨ 59 < minutes ∨ (0 < minutes ∧ hour = 24)) →
      (get_start_time_step d hour minutes).valid = false ∧
      (get_start_time_step d hour minutes).message =
        some "You entered an invalid minutes.") := by
  refine ⟨?_, fun h => ?_, fun h1 h2 => ?_⟩
  · unfold get_start_time_step
    split_ifs with h1 h2 <;> simp <;> omega
  · unfold get_start_time_step
    rw [if_pos (show hour < 0 ∨ hour > 24 by omega)]
    exact ⟨rfl, rfl⟩
  · unfold get_start_time_step
    rw [if_neg (show ¬(hour < 0 ∨ hour > 24) by omega),
      if_pos (show minutes < 0 ∨ minutes > 59 ∨ (minutes > 0 ∧ hour = 24) by omega)]
    exact ⟨rfl, rfl⟩

/-- Witness for C3_time_validation: 16:32 is accepted; hour 25 is rejected
with the invalid-hour message; 24:05 is rejected with the invalid-minutes
message. -/
theorem C3_time_validation_witness :
    (get_start_time_step mkCallData 16 32).valid = true ∧
    (get_start_time_step mkCallData 25 0).valid = false ∧
    (get_start_time_step mkCallData 25 0).message =
      some "You entered an invalid hour." ∧
    (get_start_time_step mkCallData 24 5).valid = false ∧
    (get_start_time_step mkCallData 24 5).message =
      some "You entered an invalid minutes." := by
  refine ⟨((C3_time_validation mkCallData 16 32).1).mpr (by omega), ?_, ?_, ?_, ?_⟩
  · exact ((C3_time_validation mkCallData 25 0).2.1 (by omega)).1
  · exact ((C3_time_validation mkCallData 25 0).2.1 (by omega)).2
  · exact ((C3_time_validation mkCallData 24 5).2.2 (by omega) (by omega)).1
  · exact ((C3_time_validation mkCallData 24 5).2.2 (by omega) (by omega)).2

/-- Evaluation of `get_time_formatted` on an explicit record. -/
theorem get_time_formatted_spec (w : weekday) (hh mm ll : Int) :
    get_time_formatted ⟨w, hh, mm, ll⟩ =
      (if mm = 0 then toString hh ++ ":" ++ "00"
       else toString hh ++ ":" ++ toString mm) := by
  unfold get_time_formatted
  split_ifs with hm
  · rw [hm, String.append_assoc,
      (by decide : (toString (0 : Int) ++ toString (0 : Int) : String) = "00")]
  · rfl

/-- C10: for every accepted start time, the echoed time string is
toString hour ++ ":" ++ "00" when minutes = 0 and
toString hour ++ ":" ++ toString minutes otherwise; no zero padding, so an
accepted 9:05 is echoed as "9:5". -/
theorem C10_time_echo (d : long_distance_call_data) (hour minutes : Int)
    (h : (get_start_time_step d hour minutes).valid = true) :
    get_time_formatted (get_start_time_step d hour minutes).data =
      (if minutes = 0 then toString hour ++ ":" ++ "00"
       else toString hour ++ ":" ++ toString minutes) ∧
    get_time_formatted ⟨weekday.Monday, 9, 5, 0⟩ = "9:5" := by
  refine ⟨?_, rfl⟩
  unfold get_start_time_step at h ⊢
  split_ifs at h with h1 h2
  rw [if_neg h1, if_neg h2]
  exact get_time_formatted_spec d.weekday_ hour minutes d.length_of_call_

/-- Witness for C10_time_echo: 16:32 is accepted and echoed as "16:32";
9:05 is echoed as "9:5". -/
theorem C10_time_echo_witness :
    get_time_formatted (get_start_time_step mkCallData 16 32).data =
      (if (32 : Int) = 0 then toString (16 : Int) ++ ":" ++ "00"
       else toString (16 : Int) ++ ":" ++ toString (32 : Int)) ∧
    get_time_formatted ⟨weekday.Monday, 9, 5, 0⟩ = "9:5" :=
  C10_time_echo mkCallData 16 32 (by decide)

/-- C5: for alphabetic character pairs, weekday decoding succeeds exactly on
the documented two-letter codes, case-insensitively (m* Monday, w* Wednesday,
f* Friday, tu Tuesday, th Thursday, sa Saturday, su Sunday), and every other
alphabetic pair is rejected (loop does not exit). -/
theorem C5_weekday_decoding (d : long_distance_call_data) (c1 c2 : Char)
    (h1 : isalpha c1 = true) (h2 : isalpha c2 = true) :
    ((get_day_of_week_step d c1 c2).valid = true ↔
      (tolower c1 = 'm' ∨ tolower c1 = 'w' ∨ tolower c1 = 'f' ∨
        (tolower c1 = 't' ∧ (tolower c2 = 'u' ∨ tolower c2 = 'h')) ∨
        (tolower c1 = 's' ∧ (tolower c2 = 'a' ∨ tolower c2 = 'u')))) ∧
    (tolower c1 = 'm' →
      (get_day_of_week_step d c1 c2).data.weekday_ = weekday.Monday) ∧
    (tolower c1 = 'w' →
      (get_day_of_week_step d c1 c2).data.weekday_ = weekday.Wednesday) ∧
    (tolower c1 = 'f' →
      (get_day_of_week_step d c1 c2).data.weekday_ = weekday.Friday) ∧
    (tolower c1 = 't' → tolower c2 = 'u' →
      (get_day_of_week_step d c1 c2).data.weekday_ = weekday.Tuesday) ∧
    (tolower c1 = 't' → tolower c2 = 'h' →
      (get_day_of_week_step d c1 c2).data.weekday_ = weekday.Thursday) ∧
    (tolower c1 = 's' → tolower c2 = 'a' →
      (get_day_of_week_step d c1 c2).data.weekday_ = weekday.Saturday) ∧
    (tolower c1 = 's' → tolower c2 = 'u' →
      (get_day_of_week_step d c1 c2).data.weekday_ = weekday.Sunday) := by
  unfold get_day_of_week_step
  rw [h1, h2]
  simp only [Bool.not_true, Bool.or_self, Bool.false_eq_true, if_false]
  split_ifs <;> simp_all

/-- Witness for C5_weekday_decoding: "TU" (uppercase) is accepted and decodes
to Tuesday. -/
theorem C5_weekday_decoding_witness :
    (get_day_of_week_step mkCallData 'T' 'U').valid = true ∧
    (get_day_of_week_step mkCallData 'T' 'U').data.weekday_ = weekday.Tuesday :=
  ⟨((C5_weekday_decoding mkCallData 'T' 'U' (by decide) (by decide)).1).mpr
      (by decide),
    (C5_weekday_decoding mkCallData 'T' 'U' (by decide) (by decide)).2.2.2.2.1
      (by decide) (by decide)⟩

/-- Counterexample to C6 as stated: on input "tx" the loop makes no match and
re-prompts, but prints nothing — the message "You entered an invalid
weekday." is not produced (it is only printed by the switch's default label,
which first letter 't' never reaches). -/
theorem C6_counterexample :
    (get_day_of_week_step mkCallData 't' 'x').valid = false ∧
    ¬((get_day_of_week_step mkCallData 't' 'x').message =
        some "You entered an invalid weekday.") := by
  decide

/-- C6 amended: whenever the weekday input has first letter 't' (either case)
and a second letter whose lowercase form is neither 'u' nor 'h', the read
makes no match and re-prompts silently, printing no message at all. -/
theorem C6_t_silent_reject (d : long_distance_call_data) (c1 c2 : Char)
    (h1 : isalpha c1 = true) (h2 : isalpha c2 = true)
    (ht : tolower c1 = 't') (hu : ¬(tolower c2 = 'u')) (hh : ¬(tolower c2 = 'h')) :
    get_day_of_week_step d c1 c2 = ⟨d, false, none⟩ := by
  unfold get_day_of_week_step
  rw [h1, h2]
  simp only [Bool.not_true, Bool.or_self, Bool.false_eq_true, if_false]
  rw [if_neg (by rw [ht]; decide), if_pos ht, if_neg hu, if_neg hh]

/-- Witness for C6_t_silent_reject: input "Tz" is rejected with no message
and the record unchanged. -/
theorem C6_t_silent_reject_witness :
    get_day_of_week_step mkCallData 'T' 'z' = ⟨mkCallData, false, none⟩ :=
  C6_t_silent_reject mkCallData 'T' 'z' (by decide) (by decide) (by decide)
    (by decide) (by decide)

/-- Counterexample to C7 as stated: a freshly default-constructed
long_distance_call_data has weekday_ equal to Monday, not the None sentinel,
so the record is not observably unset before input completes. -/
theorem C7_counterexample :
    mkCallData.weekday_ = weekday.Monday ∧
    ¬(mkCallData.weekday_ = weekday.None) := by
  decide

/-- C7 amended: the weekday enum does contain an explicit None sentinel
distinct from all seven days, but every freshly created record is initialized
with weekday Monday (and hour 24, minutes 0, call length 0), so the sentinel
is never the observable initial value. -/
theorem C7_default_record :
    (∀ w : weekday, w = weekday.None →
      ¬(w = weekday.Monday) ∧ ¬(w = weekday.Tuesday) ∧ ¬(w = weekday.Wednesday) ∧
      ¬(w = weekday.Thursday) ∧ ¬(w = weekday.Friday) ∧ ¬(w = weekday.Saturday) ∧
      ¬(w = weekday.Sunday)) ∧
    mkCallData.weekday_ = weekday.Monday ∧
    mkCallData.hour_ = 24 ∧ mkCallData.minutes_ = 0 ∧
    mkCallData.length_of_call_ = 0 := by
  refine ⟨?_, rfl, rfl, rfl, rfl⟩
  intro w hw
  rw [hw]
  decide

/-- Witness for C7_default_record: the None sentinel differs from Monday, and
the fresh record's weekday is Monday. -/
theorem C7_default_record_witness :
    ¬(weekday.None = weekday.Monday) ∧ mkCallData.weekday_ = weekday.Monday :=
  ⟨(C7_default_record.1 weekday.None rfl).1, C7_default_record.2.1⟩

/-- Behaviour of the modelled `std::stoi` on a token whose first character is
a digit. -/
theorem stoi_of_digit (s : String) (hd : isdigit (s.data.headD ' ') = true) :
    stoi s = (if (digitsToNat (leadingDigits s.data) : Int) > INT_MAX
      then Except.error "out_of_range"
      else Except.ok (digitsToNat (leadingDigits s.data) : Int)) := by
  obtain ⟨l⟩ := s
  cases l with
  | nil => exact absurd hd (by decide)
  | cons c cs =>
    simp only [List.headD_cons] at hd
    unfold stoi
    simp only [hd, if_true]

/-- Counterexample to C4 as stated: on the digit-leading input "9999999999"
nothing is stored as durationMinutes — std::stoi throws std::out_of_range
(9999999999 exceeds INT_MAX = 2147483647) and the program has no handler. -/
theorem C4_counterexample :
    isdigit ("9999999999".data.headD ' ') = true ∧
    get_length_of_call_step mkCallData "9999999999" =
      Except.error "out_of_range" :=
  ⟨rfl, rfl⟩

/-- C4 amended: a call-length token whose first character is not a digit is
rejected with "You did not enter a valid number." and a re-prompt; a token
whose first character is a digit has its leading numeric prefix parsed
(trailing non-digits tolerated) and stored as durationMinutes, provided that
value is at most INT_MAX = 2147483647; a larger prefix makes std::stoi throw
std::out_of_range, which nothing catches. -/
theorem C4_length_parse (d : long_distance_call_data) (s : String) :
    (isdigit (s.data.headD ' ') = false →
      get_length_of_call_step d s =
        Except.ok ⟨d, false, some "You did not enter a valid number."⟩) ∧
    (isdigit (s.data.headD ' ') = true →
      (digitsToNat (leadingDigits s.data) : Int) ≤ INT_MAX →
      get_length_of_call_step d s =
        Except.ok ⟨{ d with
          length_of_call_ := (digitsToNat (leadingDigits s.data) : Int) },
          true, none⟩) ∧
    (isdigit (s.data.headD ' ') = true →
      (digitsToNat (leadingDigits s.data) : Int) > INT_MAX →
      get_length_of_call_step d s = Except.error "out_of_range") := by
  refine ⟨fun hd => ?_, fun hd hle => ?_, fun hd hgt => ?_⟩
  · unfold get_length_of_call_step
    simp only [hd, Bool.not_false, if_true]
  · unfold get_length_of_call_step
    simp only [hd, Bool.not_true, Bool.false_eq_true, if_false]
    rw [stoi_of_digit s hd, if_neg (by omega)]
  · unfold get_length_of_call_step
    simp only [hd, Bool.not_true, Bool.false_eq_true, if_false]
    rw [stoi_of_digit s hd, if_pos hgt]

/-- Witness for C4_length_parse: "abc" is rejected with the message; "12abc"
stores 12 (lenient prefix parse); "9999999999" escapes as out_of_range. -/
theorem C4_length_parse_witness :
    get_length_of_call_step mkCallData "abc" =
      Except.ok ⟨mkCallData, false, some "You did not enter a valid number."⟩ ∧
    get_length_of_call_step mkCallData "12abc" =
      Except.ok ⟨{ mkCallData with length_of_call_ := 12 }, true, none⟩ ∧
    get_length_of_call_step mkCallData "9999999999" =
      Except.error "out_of_range" :=
  ⟨(C4_length_parse mkCallData "abc").1 (by decide),
    (C4_length_parse mkCallData "12abc").2.1 (by decide) (by decide),
    (C4_length_parse mkCallData "9999999999").2.2 (by decide) (by decide)⟩

/-- C8: every input collector is atomic on error — whenever an iteration
rejects its input (whatever the reason), the record is returned exactly as it
was before the iteration; a partially valid input (e.g. valid hour, invalid
minutes) stores nothing. -/
theorem C8_atomic_on_error :
    (∀ (d : long_distance_call_data) (c1 c2 : Char),
      (get_day_of_week_step d c1 c2).valid = false →
      (get_day_of_week_step d c1 c2).data = d) ∧
    (∀ (d : long_distance_call_data) (hour minutes : Int),
      (get_start_time_step d hour minutes).valid = false →
      (get_start_time_step d hour minutes).data = d) ∧
    (∀ (d : long_distance_call_data) (s : String) (r : StepResult),
      get_length_of_call_step d s = Except.ok r → r.valid = false →
      r.data = d) := by
  refine ⟨fun d c1 c2 h => ?_, fun d hour minutes h => ?_,
    fun d s r hr h => ?_⟩
  · unfold get_day_of_week_step at h ⊢
    split_ifs at h ⊢ <;> simp_all
  · unfold get_start_time_step at h ⊢
    split_ifs at h ⊢ <;> simp_all
  · unfold get_length_of_call_step at hr
    split_ifs at hr
    · cases hr
      rfl
    · cases hst : stoi s with
      | error e => rw [hst] at hr; cases hr
      | ok v =>
        rw [hst] at hr
        cases hr
        simp at h

/-- Witness for C8_atomic_on_error: hour 24 with minutes 5 is rejected and
the record keeps its prior hour and minutes (nothing partial is stored), and
a rejected weekday and call length leave the record unchanged too. -/
theorem C8_atomic_on_error_witness :
    (get_day_of_week_step mkCallData 't' 'q').data = mkCallData ∧
    (get_start_time_step mkCallData 24 5).data = mkCallData ∧
    (⟨mkCallData, false, some "You did not enter a valid number."⟩ :
      StepResult).data = mkCallData :=
  ⟨C8_atomic_on_error.1 mkCallData 't' 'q' (by decide),
    C8_atomic_on_error.2.1 mkCallData 24 5 (by decide),
    C8_atomic_on_error.2.2 mkCallData "abc"
      ⟨mkCallData, false, some "You did not enter a valid number."⟩
      rfl (by decide)⟩

/-- C9: the continue prompt quits exactly on n/N ('y'/'Y' and anything else
keep the session running, anything but y/n/Y/N printing the
take-that-as-a-yes message) — but the claim that no other path ends the
process is falsified by the uncaught std::out_of_range thrown by std::stoi on
a call-length token such as "9999999999": that exception terminates the
process abnormally. -/
theorem C9_exit_behaviour :
    (continue_prompt_step 'n').1 = true ∧
    (continue_prompt_step 'N').1 = true ∧
    (continue_prompt_step 'y') = (false, none) ∧
    (continue_prompt_step 'Y') = (false, none) ∧
    (continue_prompt_step '7') = (false, some "I\x27ll take that as a yes") ∧
    get_length_of_call_step mkCallData "9999999999" =
      Except.error "out_of_range" :=
  ⟨rfl, rfl, rfl, rfl, rfl, rfl⟩
